import Mathlib

/-!
# Verification of the LLMPerception prompt-annotation plugin

A shallow embedding of `main.py` of the `astrbot_plugin_LLMPerception`
repository.  The plugin observes each outgoing LLM request and prepends a
bracketed annotation (time, holiday/weekday, lunar date, solar term, almanac,
platform metadata) to the request prompt.

External libraries (`chinese_calendar`, `lunarcalendar`, `zoneinfo`, the host
framework's event object) are modelled as explicit oracle parameters: a
fallible Python call becomes a function into `Except` (an `.error` value is a
raised exception), and dynamic attribute probing on the event object becomes
`Option`-valued fields of an explicit `Event` structure.  Machine arithmetic is
over `Nat`/`Int`; Python `%` on a possibly negative operand is `Int.emod`
followed by `toNat`.
-/

namespace LLMPerception

/-! ## Static lookup tables (module-level constants of `main.py`) -/

/-- `LUNAR_MONTHS` of `main.py`. -/
def LUNAR_MONTHS : List String :=
  ["正月", "二月", "三月", "四月", "五月", "六月",
   "七月", "八月", "九月", "十月", "冬月", "腊月"]

/-- `LUNAR_DAYS` of `main.py`. -/
def LUNAR_DAYS : List String :=
  ["初一", "初二", "初三", "初四", "初五", "初六", "初七", "初八", "初九", "初十",
   "十一", "十二", "十三", "十四", "十五", "十六", "十七", "十八", "十九", "二十",
   "廿一", "廿二", "廿三", "廿四", "廿五", "廿六", "廿七", "廿八", "廿九", "三十"]

/-- `SOLAR_TERMS` of `main.py`: the 24 solar-term names. -/
def SOLAR_TERMS : List String :=
  ["小寒", "大寒", "立春", "雨水", "惊蛰", "春分",
   "清明", "谷雨", "立夏", "小满", "芒种", "夏至",
   "小暑", "大暑", "立秋", "处暑", "白露", "秋分",
   "寒露", "霜降", "立冬", "小雪", "大雪", "冬至"]

/-- `TIAN_GAN` of `main.py`: the ten heavenly stems. -/
def TIAN_GAN : List String :=
  ["甲", "乙", "丙", "丁", "戊", "己", "庚", "辛", "壬", "癸"]

/-- `DI_ZHI` of `main.py`: the twelve earthly branches. -/
def DI_ZHI : List String :=
  ["子", "丑", "寅", "卯", "辰", "巳", "午", "未", "申", "酉", "戌", "亥"]

/-- `SHENG_XIAO` of `main.py`: the twelve zodiac animals. -/
def SHENG_XIAO : List String :=
  ["鼠", "牛", "虎", "兔", "龙", "蛇", "马", "羊", "猴", "鸡", "狗", "猪"]

/-- `YI_ITEMS` of `main.py`: the pool of "auspicious" almanac activities. -/
def YI_ITEMS : List String :=
  ["祭祀", "祈福", "求嗣", "开光", "出行", "解除", "动土", "起基",
   "开市", "交易", "立券", "挂匾", "安床", "入宅", "移徙", "栽种",
   "纳畜", "入殓", "安葬", "启钻", "除服", "成服", "修造", "竖柱"]

/-- `JI_ITEMS` of `main.py`: the pool of "inauspicious" almanac activities. -/
def JI_ITEMS : List String :=
  ["嫁娶", "开市", "安葬", "动土", "破土", "作灶", "安床", "入宅",
   "移徙", "出行", "祭祀", "祈福", "开光", "纳采", "订盟", "造庙"]

/-- `WEEKDAY_NAMES` of `main.py`, indexed by Python `date.weekday()` (0 = Monday). -/
def WEEKDAY_NAMES : List String :=
  ["周一", "周二", "周三", "周四", "周五", "周六", "周日"]

/-- `PLATFORM_DISPLAY_NAMES` of `main.py`, as an association list. -/
def PLATFORM_DISPLAY_NAMES : List (String × String) :=
  [("aiocqhttp", "QQ"),
   ("telegram", "Telegram"),
   ("discord", "Discord"),
   ("weixin_official_account", "微信公众号"),
   ("wecom", "企业微信"),
   ("wecom_ai_bot", "企业微信AI机器人"),
   ("satori", "Satori"),
   ("misskey", "Misskey")]

/-- `PLATFORM_DISPLAY_NAMES.get(platform_name, platform_name)` of `main.py`. -/
def platformDisplayName (p : String) : String :=
  match PLATFORM_DISPLAY_NAMES.find? (fun kv => kv.1 = p) with
  | some kv => kv.2
  | none => p

/-! ## Configuration and time values -/

/-- The configuration fields read in `MyPlugin.__init__` (time zone handled
separately, see `initTimezone`). -/
structure Config where
  enable_holiday : Bool
  enable_platform : Bool
  enable_lunar : Bool
  enable_solar_term : Bool
  enable_almanac : Bool
  holiday_country : String

/-- A Python `datetime` value as the plugin consumes it: calendar fields plus
`weekday()`, which Python guarantees lies in `0..6` (0 = Monday). -/
structure PyDateTime where
  year : Nat
  month : Nat
  day : Nat
  hour : Nat
  minute : Nat
  second : Nat
  weekday : Fin 7

/-- A character of a decimal digit: models Python integer formatting of one
digit position. -/
def digitChar (n : Nat) : Char :=
  match n % 10 with
  | 0 => '0' | 1 => '1' | 2 => '2' | 3 => '3' | 4 => '4'
  | 5 => '5' | 6 => '6' | 7 => '7' | 8 => '8' | _ => '9'

/-- Two-digit zero-padded field of `strftime` (`%m`, `%d`, `%H`, `%M`, `%S`). -/
def pad2 (n : Nat) : String := String.mk [digitChar (n / 10), digitChar n]

/-- Four-digit zero-padded field of `strftime` (`%Y`, for years below 10000). -/
def pad4 (n : Nat) : String :=
  String.mk [digitChar (n / 1000), digitChar (n / 100), digitChar (n / 10), digitChar n]

/-- `current_time.strftime("%Y-%m-%d %H:%M:%S")` of `main.py` line 394,
modelling C `strftime` for years below 10000. -/
def strftimeYmdHMS (t : PyDateTime) : String :=
  pad4 t.year ++ "-" ++ pad2 t.month ++ "-" ++ pad2 t.day ++ " " ++
  pad2 t.hour ++ ":" ++ pad2 t.minute ++ ":" ++ pad2 t.second

/-! ## Time-of-day bucket (lines 149–161 of `main.py`) -/

/-- The hour-bucket chain of `_get_holiday_info`: lines 150–160 of `main.py`. -/
def timePeriod (hour : Nat) : String :=
  if 5 ≤ hour ∧ hour < 12 then "上午"
  else if 12 ≤ hour ∧ hour < 14 then "中午"
  else if 14 ≤ hour ∧ hour < 18 then "下午"
  else if 18 ≤ hour ∧ hour < 22 then "晚上"
  else "深夜"

/-- The bucket map as the specification words it: 05:00–11:59 morning,
12:00–13:59 noon, 14:00–17:59 afternoon, 18:00–21:59 evening, all remaining
hours (22:00–04:59) late-night. -/
def timePeriodSpec (hour : Nat) : String :=
  if 5 ≤ hour ∧ hour ≤ 11 then "上午"
  else if 12 ≤ hour ∧ hour ≤ 13 then "中午"
  else if 14 ≤ hour ∧ hour ≤ 17 then "下午"
  else if 18 ≤ hour ∧ hour ≤ 21 then "晚上"
  else "深夜"

/-! ## Solar-term phrase (`_get_solar_term_info`, lines 193–250 of `main.py`) -/

/-- `solar_term_dates` of `main.py`: approximate (month, day) of each of the 24
solar terms, aligned with `SOLAR_TERMS` by index. -/
def solar_term_dates : List (Nat × Nat) :=
  [(1, 6), (1, 20), (2, 4), (2, 19), (3, 6), (3, 21),
   (4, 5), (4, 20), (5, 6), (5, 21), (6, 6), (6, 21),
   (7, 7), (7, 23), (8, 7), (8, 23), (9, 8), (9, 23),
   (10, 8), (10, 23), (11, 7), (11, 22), (12, 7), (12, 22)]

/-- `abs(a - b)` on Python integers, for natural arguments. -/
def absDiff (a b : Nat) : Nat := max a b - min a b

/-- The first `for` loop of `_get_solar_term_info` (lines 220–227): scan the
index list for the first table entry whose month matches and whose day is
within 2 of today, and report today/approaching/passed for its term. -/
def solarTermNearScan (cm cd : Nat) : List Nat → Option String
  | [] => none
  | i :: rest =>
    let md := solar_term_dates.getD i (0, 0)
    if cm = md.1 ∧ absDiff cd md.2 ≤ 2 then
      if cd = md.2 then some ("今日" ++ SOLAR_TERMS.getD i "")
      else if cd < md.2 then some ("临近" ++ SOLAR_TERMS.getD i "")
      else some (SOLAR_TERMS.getD i "" ++ "已过")
    else solarTermNearScan cm cd rest

/-- The second `for` loop of `_get_solar_term_info` (lines 230–245): find the
pair of consecutive terms (circularly, wrapping December to January) that
brackets today's month·100+day ordinal and report the active term. -/
def solarTermBracketScan (cm cd : Nat) : List Nat → Option String
  | [] => none
  | i :: rest =>
    let md := solar_term_dates.getD i (0, 0)
    let nmd := solar_term_dates.getD ((i + 1) % 24) (0, 0)
    let current_ordinal := cm * 100 + cd
    let this_ordinal := md.1 * 100 + md.2
    let next_ordinal := nmd.1 * 100 + nmd.2
    if next_ordinal < this_ordinal then
      if this_ordinal ≤ current_ordinal ∨ current_ordinal < next_ordinal then
        some ("当前节气: " ++ SOLAR_TERMS.getD i "")
      else solarTermBracketScan cm cd rest
    else
      if this_ordinal ≤ current_ordinal ∧ current_ordinal < next_ordinal then
        some ("当前节气: " ++ SOLAR_TERMS.getD i "")
      else solarTermBracketScan cm cd rest

/-- `_get_solar_term_info` of `main.py`: the feature toggle and the
availability of the `lunarcalendar` import are explicit parameters; only the
month and day of `current_time` are consumed.  The body is pure, so the
`try`/`except` of the source can raise nothing and the fall-through returns
the empty string. -/
def _get_solar_term_info (enable_solar_term lunar_available : Bool)
    (cm cd : Nat) : String :=
  if !enable_solar_term || !lunar_available then ""
  else
    match solarTermNearScan cm cd (List.range 24) with
    | some s => s
    | none =>
      match solarTermBracketScan cm cd (List.range 24) with
      | some s => s
      | none => ""

/-! ## Almanac phrase (`_get_almanac_info`, lines 252–284 of `main.py`) -/

/-- The day-hash of line 259: `year * 10000 + month * 100 + day`. -/
def dayHash (y m d : Nat) : Nat := y * 10000 + m * 100 + d

/-- The auspicious-item list of `_get_almanac_info`: `yi_count = day_hash % 4 + 2`
items taken from `YI_ITEMS` starting at `day_hash % len(YI_ITEMS)` with
stride 3 (lines 262, 266, 272–273). -/
def yiListOf (h : Nat) : List String :=
  (List.range (h % 4 + 2)).map
    (fun i => YI_ITEMS.getD ((h % YI_ITEMS.length + i * 3) % YI_ITEMS.length) "")

/-- The inauspicious-item list of `_get_almanac_info`: `ji_count = day_hash % 3 + 2`
items taken from `JI_ITEMS` starting at `day_hash * 7 % len(JI_ITEMS)` with
stride 5 (lines 263, 267, 275–276). -/
def jiListOf (h : Nat) : List String :=
  (List.range (h % 3 + 2)).map
    (fun i => JI_ITEMS.getD ((h * 7 % JI_ITEMS.length + i * 5) % JI_ITEMS.length) "")

/-- `_get_almanac_info` of `main.py`: the feature toggle is an explicit
parameter; only year, month and day of `current_time` are consumed.  The body
is pure, so the `try`/`except` of the source can raise nothing. -/
def _get_almanac_info (enable_almanac : Bool) (y m d : Nat) : String :=
  if !enable_almanac then ""
  else
    let h := dayHash y m d
    "宜: " ++ String.intercalate "、" (yiListOf h) ++
      " | 忌: " ++ String.intercalate "、" (jiListOf h)

/-! ## Holiday phrase (`_get_holiday_info`, lines 104–164 of `main.py`) -/

/-- `datetime.date(year, month, day)` as constructed on line 117. -/
structure SimpleDate where
  year : Nat
  month : Nat
  day : Nat

/-- Oracle for the external `chinese_calendar` library.  Each call is
fallible: `.error msg` models a raised Python exception (the library raises
`NotImplementedError` for dates outside its shipped data range).
`get_holiday_detail` returns an optional `(is_on_holiday, holiday_name)`
pair, the name itself optional, mirroring the tuple-truthiness tests of
line 128. -/
structure CalendarOracle where
  is_holiday : SimpleDate → Except String Bool
  is_workday : SimpleDate → Except String Bool
  get_holiday_detail : SimpleDate → Except String (Option (Bool × Option String))

/-- `_get_holiday_info` of `main.py`.  The function body has **no**
`try`/`except`, so an error of any calendar call propagates: the result type
is `Except`.  `calendar_available` models `CHINESE_CALENDAR_AVAILABLE`. -/
def _get_holiday_info (cfg : Config) (cal : CalendarOracle)
    (calendar_available : Bool) (t : PyDateTime) : Except String String :=
  if !cfg.enable_holiday then .ok ""
  else
    let weekday := t.weekday.val
    let weekdayName := WEEKDAY_NAMES.getD weekday ""
    let statusE : Except String String :=
      if cfg.holiday_country = "CN" && calendar_available then
        let current_date : SimpleDate := ⟨t.year, t.month, t.day⟩
        match cal.is_holiday current_date with
        | .error err => .error err
        | .ok is_holiday =>
          match cal.is_workday current_date with
          | .error err => .error err
          | .ok is_workday =>
            if is_holiday then
              match cal.get_holiday_detail current_date with
              | .error err => .error err
              | .ok holiday_detail =>
                let holiday_name :=
                  match holiday_detail with
                  | some (_, some nm) => if nm = "" then "法定节假日" else nm
                  | _ => "法定节假日"
                if weekday ≥ 5 then .ok ("周末(" ++ holiday_name ++ ")")
                else .ok ("法定节假日(" ++ holiday_name ++ ")")
            else if is_workday then
              if weekday ≥ 5 then .ok "调休工作日" else .ok "工作日"
            else .ok "周末"
      else
        if weekday ≥ 5 then .ok "周末" else .ok "工作日"
    match statusE with
    | .error err => .error err
    | .ok status =>
      let info_parts := [weekdayName, status, timePeriod t.hour]
      .ok (String.intercalate ", " (info_parts.filter (fun p => p ≠ "")))

/-! ## Lunar phrase (`_get_lunar_info`, lines 166–191 of `main.py`) -/

/-- The value returned by `lunarcalendar.Converter.Solar2Lunar`. -/
structure LunarDate where
  year : Nat
  month : Nat
  day : Nat
  isleap : Bool

/-- Oracle for `Converter.Solar2Lunar(Solar(y, m, d))`; `.error` models a
raised exception, which the source catches. -/
def LunarOracle : Type := Nat → Nat → Nat → Except String LunarDate

/-- Python list indexing `l[i]` for a possibly negative index: negative
indices count from the end, out-of-range raises IndexError (`none`). -/
def pyGet (l : List String) (i : Int) : Option String :=
  if i < 0 then
    if 0 ≤ i + l.length then l.get? (i + l.length).toNat else none
  else l.get? i.toNat

/-- `_get_lunar_info` of `main.py`: converts the Gregorian date through the
oracle, renders month/day through the name tables (Python indexing, an
out-of-range index being caught by the `except`), prefixes the leap marker,
and computes the sexagenary labels with Python `%` semantics
(`Int.emod`, non-negative for a positive modulus). -/
def _get_lunar_info (enable_lunar lunar_available : Bool) (conv : LunarOracle)
    (t : PyDateTime) : String :=
  if !enable_lunar || !lunar_available then ""
  else
    match conv t.year t.month t.day with
    | .error _ => ""
    | .ok lunar =>
      match pyGet LUNAR_MONTHS ((lunar.month : Int) - 1),
            pyGet LUNAR_DAYS ((lunar.day : Int) - 1) with
      | some ms, some day_str =>
        let month_str := if lunar.isleap then "闰" ++ ms else ms
        let year_gan := TIAN_GAN.getD (((lunar.year : Int) - 4).emod 10).toNat ""
        let year_zhi := DI_ZHI.getD (((lunar.year : Int) - 4).emod 12).toNat ""
        let sheng_xiao := SHENG_XIAO.getD (((lunar.year : Int) - 4).emod 12).toNat ""
        "农历" ++ year_gan ++ year_zhi ++ "年(" ++ sheng_xiao ++ "年)" ++
          month_str ++ day_str
      | _, _ => ""

/-! ## Time-zone initialisation (`MyPlugin.__init__`, lines 84–90 of `main.py`) -/

/-- The raise surface of a `zoneinfo.ZoneInfo` lookup: `ZoneInfoNotFoundError`
for an unknown zone name and `KeyError` — the two kinds the `except` clause of
line 87 catches — plus `ValueError`, which `ZoneInfo` raises for malformed
keys (the empty string, absolute paths, parent-directory components) and which
the `except` clause does **not** catch. -/
inductive ZoneLookupError
  | zoneInfoNotFound
  | keyError
  | valueError
deriving DecidableEq

/-- A time-zone object, identified by its IANA key (models
`zoneinfo.ZoneInfo`). -/
structure TZInfo where
  key : String
deriving DecidableEq

/-- The `try`/`except` of lines 85–90: look the configured name up; on one of
the two caught kinds, log and look up the default `Asia/Shanghai` instead
(the fallback lookup itself is outside the `try`); any other raised exception
propagates out of `__init__`. -/
def initTimezone (zoneLookup : String → Except ZoneLookupError TZInfo)
    (timezone_name : String) : Except ZoneLookupError TZInfo :=
  match zoneLookup timezone_name with
  | .ok z => .ok z
  | .error ZoneLookupError.zoneInfoNotFound => zoneLookup "Asia/Shanghai"
  | .error ZoneLookupError.keyError => zoneLookup "Asia/Shanghai"
  | .error e => .error e

/-! ## Concrete instances used in witnesses and counterexamples -/

/-- The default configuration of `__init__` (lines 77–82): everything on
except the almanac, country `CN`. -/
def cfgCN : Config :=
  ⟨true, true, true, true, false, "CN"⟩

/-- All five optional feature toggles off. -/
def cfgAllOff : Config :=
  ⟨false, false, false, false, false, "CN"⟩

/-- A calendar oracle whose lookups raise, as `chinese_calendar` does for any
date outside its shipped data range (for example the year 2200). -/
def raisingCalendar : CalendarOracle :=
  ⟨fun _ => .error "NotImplementedError: no available data",
   fun _ => .error "NotImplementedError: no available data",
   fun _ => .error "NotImplementedError: no available data"⟩

/-- January 1 of the year 2200 at 10:00:00, a Wednesday (weekday 2). -/
def dt2200 : PyDateTime :=
  ⟨2200, 1, 1, 10, 0, 0, ⟨2, by decide⟩⟩

/-- A zone database behaving as CPython `zoneinfo` does: it resolves
`Asia/Shanghai`, raises `ValueError` for the malformed keys the library
rejects (empty string, absolute path, parent-directory component), and raises
`ZoneInfoNotFoundError` for every other unknown name. -/
def tzdbRealistic (name : String) : Except ZoneLookupError TZInfo :=
  if name = "Asia/Shanghai" then .ok ⟨"Asia/Shanghai"⟩
  else if name = "" ∨ name = "/etc/localtime" ∨ name = "../x" then
    .error .valueError
  else .error .zoneInfoNotFound

/-! ## Platform phrase (`_clean_group_name`, `_get_group_name`,
`_get_platform_info`, lines 286–386 of `main.py`) -/

/-- The message type enumeration of `astrbot.core.platform.message_type`. -/
inductive MessageType
  | GROUP_MESSAGE
  | FRIEND_MESSAGE
  | OTHER_MESSAGE
deriving DecidableEq

/-- A group object as attached to a message or returned by the protocol
endpoint; its `group_name` attribute may be absent. -/
structure GroupObj where
  group_name : Option String
deriving DecidableEq

/-- One segment of the message chain, carrying its `type` tag. -/
structure Seg where
  type : String
deriving DecidableEq

/-- The `message_obj` attached to an event.  `message` is `Option`-valued
because the source feature-probes `hasattr(message_chain, "message")`. -/
structure MessageObj where
  group : Option GroupObj
  group_id : String
  type : MessageType
  message : Option (List Seg)

/-- The host event as the plugin probes it.  `has_*` fields model
`hasattr`/`callable` feature tests; `get_group_result` is the awaited result
of the `get_group` network call, `.error` being a raised exception. -/
structure Event where
  platform_name : String
  message_obj : Option MessageObj
  has_get_message_type : Bool
  message_type_result : MessageType
  has_get_group_id : Bool
  group_id_result : String
  has_get_group : Bool
  get_group_result : Except String (Option GroupObj)

/-- `_clean_group_name` of `main.py` (lines 286–296). -/
def _clean_group_name (name : Option String) : Option String :=
  match name with
  | none => none
  | some n =>
    if n = "" then none
    else
      let candidate := n.trim
      if candidate = "" then none
      else if candidate.toUpper = "N/A" ∨ candidate.toUpper = "NONE" ∨
          candidate.toUpper = "NULL" ∨ candidate.toUpper = "UNKNOWN" then none
      else some candidate

/-- The `group_id` probing shared by `_get_group_name` and
`_get_platform_info` (lines 311–315 and 358–362). -/
def probeGroupId (e : Event) : String :=
  if e.has_get_group_id then e.group_id_result
  else
    match e.message_obj with
    | some mo => mo.group_id
    | none => ""

/-- `_get_group_name` of `main.py` (lines 298–330): prefer the name attached
to the message object; otherwise call the protocol endpoint, swallowing any
raised exception (`.error` becomes `none`). -/
def _get_group_name (e : Event) : Option String :=
  let group_obj := e.message_obj.bind (fun mo => mo.group)
  let fromAttached : Option String :=
    group_obj.bind (fun g => _clean_group_name g.group_name)
  match fromAttached with
  | some n => some n
  | none =>
    if !e.has_get_group then none
    else
      let group_id := probeGroupId e
      if group_id = "" then none
      else
        match e.get_group_result with
        | .error _ => none
        | .ok none => none
        | .ok (some group_info) => _clean_group_name group_info.group_name

/-- The attached-media scan of `_get_platform_info` (lines 373–384). -/
def mediaParts (mo : Option MessageObj) : List String :=
  match mo with
  | some m =>
    match m.message with
    | some segs =>
      (if segs.any (fun s => s.type = "image") then ["含图片"] else []) ++
      (if segs.any (fun s => s.type = "voice" ∨ s.type = "audio") then ["含语音"] else []) ++
      (if segs.any (fun s => s.type = "video") then ["含视频"] else [])
    | none => []
  | none => []

/-- The part list built by `_get_platform_info` (lines 337–384), before the
final `", ".join`. -/
def platformParts (e : Event) : List String :=
  let base := ["平台: " ++ platformDisplayName e.platform_name]
  let message_type : Option MessageType :=
    if e.has_get_message_type then some e.message_type_result
    else e.message_obj.map (fun mo => mo.type)
  let kindState : List String × Bool :=
    if message_type = some MessageType.GROUP_MESSAGE then (["群聊"], true)
    else if message_type = some MessageType.FRIEND_MESSAGE then (["私聊"], false)
    else if probeGroupId e ≠ "" then (["群聊"], true)
    else ([], false)
  let groupParts : List String :=
    if kindState.2 then
      match _get_group_name e with
      | some n => ["群名: " ++ n]
      | none => []
    else []
  base ++ kindState.1 ++ groupParts ++ mediaParts e.message_obj

/-- `_get_platform_info` of `main.py`. -/
def _get_platform_info (enable_platform : Bool) (e : Event) : String :=
  if !enable_platform then ""
  else String.intercalate ", " (platformParts e)

/-- A group-chat event whose attached message carries no group object and
whose `get_group` network call raises. -/
def eventFetchFails : Event where
  platform_name := "aiocqhttp"
  message_obj := some ⟨none, "123456", MessageType.GROUP_MESSAGE, some [⟨"image"⟩]⟩
  has_get_message_type := true
  message_type_result := MessageType.GROUP_MESSAGE
  has_get_group_id := true
  group_id_result := "123456"
  has_get_group := true
  get_group_result := .error "ConnectionError: network unreachable"

/-! ## Orchestration hook (`my_custom_hook_1`, lines 388–430 of `main.py`) -/

/-- The outgoing request.  `prompt` is the field the hook rewrites; `rest`
stands for every other field of `ProviderRequest`, of arbitrary type, so that
a theorem can state that nothing else changes. -/
structure ProviderRequest (α : Type) where
  prompt : String
  rest : α
deriving DecidableEq

/-- `my_custom_hook_1` of `main.py`: format the timestamp, collect the
enabled non-empty phrases in order (time, holiday, lunar, solar-term,
almanac, platform), join with `" | "`, and rewrite the prompt to the
bracketed text, a newline, then the original prompt.  Only the holiday
computation can raise (it has no `try`/`except`), so the hook itself is
fallible. -/
def my_custom_hook_1 {α : Type} (cfg : Config) (cal : CalendarOracle)
    (calendar_available lunar_available : Bool) (conv : LunarOracle)
    (t : PyDateTime) (e : Event) (req : ProviderRequest α) :
    Except String (ProviderRequest α) :=
  let timestr := strftimeYmdHMS t
  let perception_parts := ["发送时间: " ++ timestr]
  match _get_holiday_info cfg cal calendar_available t with
  | .error err => .error err
  | .ok holiday_info =>
    let perception_parts :=
      if holiday_info ≠ "" then perception_parts ++ [holiday_info] else perception_parts
    let lunar_info := _get_lunar_info cfg.enable_lunar lunar_available conv t
    let perception_parts :=
      if lunar_info ≠ "" then perception_parts ++ [lunar_info] else perception_parts
    let solar_term_info :=
      _get_solar_term_info cfg.enable_solar_term lunar_available t.month t.day
    let perception_parts :=
      if solar_term_info ≠ "" then perception_parts ++ [solar_term_info] else perception_parts
    let almanac_info := _get_almanac_info cfg.enable_almanac t.year t.month t.day
    let perception_parts :=
      if almanac_info ≠ "" then perception_parts ++ [almanac_info] else perception_parts
    let platform_info := _get_platform_info cfg.enable_platform e
    let perception_parts :=
      if platform_info ≠ "" then perception_parts ++ [platform_info] else perception_parts
    let perception_text := String.intercalate " | " perception_parts
    .ok { prompt := "[" ++ perception_text ++ "]\n" ++ req.prompt, rest := req.rest }

/-- A lunar-conversion oracle that always raises, modelling an absent or
failing `lunarcalendar` conversion. -/
def failingLunarConv : LunarOracle := fun _ _ _ => .error "conversion failed"

/-- A minimal private-chat event. -/
def eventPrivate : Event where
  platform_name := "telegram"
  message_obj := none
  has_get_message_type := true
  message_type_result := MessageType.FRIEND_MESSAGE
  has_get_group_id := false
  group_id_result := ""
  has_get_group := false
  get_group_result := .ok none

/-- A request with a `Nat`-valued residue field standing for the fields the
hook must not touch. -/
def req0 : ProviderRequest Nat := ⟨"hello", 42⟩

/-! ## Theorems -/

/-- **C4** — For every hour of the day, the time-of-day bucket of the code
(lines 149–161 of `main.py`) agrees with the specification's bucket map:
hours 05–11 map to the morning label, 12–13 to noon, 14–17 to afternoon,
18–21 to evening, and every other hour (22–23 and 00–04) to the late-night
label, with the stated boundary inclusivity. -/
theorem C4_time_buckets (hour : Nat) (hh : hour < 24) :
    timePeriod hour = timePeriodSpec hour := by
  revert hh
  revert hour
  decide

/-- Witness for `C4_time_buckets` at hour 5. -/
theorem C4_time_buckets_witness :
    5 < 24 ∧ timePeriod 5 = timePeriodSpec 5 :=
  ⟨by decide, C4_time_buckets 5 (by decide)⟩

/-- **C5** — For every date whose month equals the month of some entry of the
24-entry solar-term table and whose day is within 2 of that entry's day, the
solar-term phrase (feature enabled, calendar library available) is
today-is-X when the days are equal, approaching-X when today's day is
smaller, and X-has-passed when it is larger, for that entry's term X.  Days
are quantified over `Fin 36`, a superset of all calendar days. -/
theorem C5_solar_term_near_window (i : Fin 24) (d : Fin 36)
    (hnear : absDiff d.val (solar_term_dates.getD i.val (0, 0)).2 ≤ 2) :
    _get_solar_term_info true true (solar_term_dates.getD i.val (0, 0)).1 d.val =
      (if d.val = (solar_term_dates.getD i.val (0, 0)).2 then
        "今日" ++ SOLAR_TERMS.getD i.val ""
      else if d.val < (solar_term_dates.getD i.val (0, 0)).2 then
        "临近" ++ SOLAR_TERMS.getD i.val ""
      else SOLAR_TERMS.getD i.val "" ++ "已过") := by
  revert i d
  decide

/-- Witness for `C5_solar_term_near_window`: entry 18 = (10, 8) with day 7
(one day before 寒露), where the phrase is 临近寒露. -/
theorem C5_solar_term_near_window_witness :
    absDiff (7 : Fin 36).val (solar_term_dates.getD (18 : Fin 24).val (0, 0)).2 ≤ 2 ∧
    _get_solar_term_info true true
        (solar_term_dates.getD (18 : Fin 24).val (0, 0)).1 (7 : Fin 36).val =
      (if (7 : Fin 36).val = (solar_term_dates.getD (18 : Fin 24).val (0, 0)).2 then
        "今日" ++ SOLAR_TERMS.getD (18 : Fin 24).val ""
      else if (7 : Fin 36).val < (solar_term_dates.getD (18 : Fin 24).val (0, 0)).2 then
        "临近" ++ SOLAR_TERMS.getD (18 : Fin 24).val ""
      else SOLAR_TERMS.getD (18 : Fin 24).val "" ++ "已过") :=
  ⟨by decide, C5_solar_term_near_window 18 7 (by decide)⟩

/-- **C6** — The solar-term bracket scan is circular across the
December→January boundary: with the feature enabled and the calendar library
available, December 30 and January 2 both produce (without any exception —
the embedding is a total function) the non-empty phrase naming 冬至, the term
of the December 22 – January 6 interval. -/
theorem C6_solar_term_year_wraparound :
    _get_solar_term_info true true 12 30 = "当前节气: 冬至" ∧
    _get_solar_term_info true true 1 2 = "当前节气: 冬至" ∧
    "当前节气: 冬至" ≠ "" := by
  refine ⟨by decide, by decide, by decide⟩

/-- **C3** — The almanac phrase is a pure function of (year, month, day):
its two item lists are recomputed identically on every call, the auspicious
list has `day_hash % 4 + 2 ∈ [2, 5]` items and the inauspicious list
`day_hash % 3 + 2 ∈ [2, 4]` items, and the items are selected from the two
fixed pools by strides 3 and 5 from start offsets seeded by the day-hash
`year*10000 + month*100 + day`. -/
theorem C3_almanac_pure_and_counts (y m d : Nat) :
    _get_almanac_info true y m d = _get_almanac_info true y m d ∧
    (yiListOf (dayHash y m d)).length = dayHash y m d % 4 + 2 ∧
    2 ≤ (yiListOf (dayHash y m d)).length ∧ (yiListOf (dayHash y m d)).length ≤ 5 ∧
    (jiListOf (dayHash y m d)).length = dayHash y m d % 3 + 2 ∧
    2 ≤ (jiListOf (dayHash y m d)).length ∧ (jiListOf (dayHash y m d)).length ≤ 4 ∧
    yiListOf (dayHash y m d) =
      (List.range (dayHash y m d % 4 + 2)).map
        (fun i => YI_ITEMS.getD ((dayHash y m d % 24 + i * 3) % 24) "") ∧
    jiListOf (dayHash y m d) =
      (List.range (dayHash y m d % 3 + 2)).map
        (fun i => JI_ITEMS.getD ((dayHash y m d * 7 % 16 + i * 5) % 16) "") ∧
    _get_almanac_info true y m d =
      "宜: " ++ String.intercalate "、" (yiListOf (dayHash y m d)) ++
        " | 忌: " ++ String.intercalate "、" (jiListOf (dayHash y m d)) := by
  refine ⟨rfl, ?_, ?_, ?_, ?_, ?_, ?_, rfl, rfl, rfl⟩ <;>
    simp [yiListOf, jiListOf] <;> omega

/-- Nodup of the auspicious selection, for every residue of the start offset
and of the count seed: stride-3 index sequences of length at most 5 hit
pairwise distinct entries of the 24-item pool. -/
theorem yi_selection_nodup_aux (s : Fin 24) (c : Fin 4) :
    (((List.range (c.val + 2)).map
      (fun i => YI_ITEMS.getD ((s.val + i * 3) % 24) ""))).Nodup := by
  revert s c
  decide

/-- Nodup of the inauspicious selection, for every residue of the start
offset and of the count seed: stride-5 index sequences of length at most 4
hit pairwise distinct entries of the 16-item pool. -/
theorem ji_selection_nodup_aux (s : Fin 16) (c : Fin 3) :
    (((List.range (c.val + 2)).map
      (fun i => JI_ITEMS.getD ((s.val + i * 5) % 16) ""))).Nodup := by
  revert s c
  decide

/-- **C10** — For every date, the selected almanac item lists are each
duplicate-free: the 2–5 auspicious picks at stride 3 over the 24-item pool
and the 2–4 inauspicious picks at stride 5 over the 16-item pool are pairwise
distinct list entries. -/
theorem C10_almanac_lists_nodup (y m d : Nat) :
    (yiListOf (dayHash y m d)).Nodup ∧ (jiListOf (dayHash y m d)).Nodup ∧
    YI_ITEMS.length = 24 ∧ JI_ITEMS.length = 16 := by
  have hy := yi_selection_nodup_aux
    ⟨dayHash y m d % 24, Nat.mod_lt _ (by omega)⟩
    ⟨dayHash y m d % 4, Nat.mod_lt _ (by omega)⟩
  have hj := ji_selection_nodup_aux
    ⟨dayHash y m d * 7 % 16, Nat.mod_lt _ (by omega)⟩
    ⟨dayHash y m d % 3, Nat.mod_lt _ (by omega)⟩
  exact ⟨hy, hj, rfl, rfl⟩

/-- **C2 (counterexample)** — The holiday-phrase computation does *not* fail
soft: with the feature enabled, country `CN` and the calendar library
available, a raising calendar lookup (as `chinese_calendar` performs for the
out-of-range date 2200-01-01) makes `_get_holiday_info` return the raised
error rather than an empty phrase. -/
theorem C2_counterexample_holiday_error_escapes :
    _get_holiday_info cfgCN raisingCalendar true dt2200 =
      .error "NotImplementedError: no available data" := by
  rfl

/-- **C2 (amended)** — `_get_holiday_info` has no exception handling: with
the feature enabled, country `CN` and the calendar library available, any
error raised by the first calendar lookup propagates out of the function
unchanged. -/
theorem C2_amended_holiday_error_propagates (cfg : Config) (cal : CalendarOracle)
    (t : PyDateTime) (err : String)
    (hen : cfg.enable_holiday = true)
    (hcn : cfg.holiday_country = "CN")
    (herr : cal.is_holiday ⟨t.year, t.month, t.day⟩ = .error err) :
    _get_holiday_info cfg cal true t = .error err := by
  simp [_get_holiday_info, hen, hcn, herr]

/-- Witness for `C2_amended_holiday_error_propagates` at the concrete raising
calendar and 2200-01-01. -/
theorem C2_amended_holiday_error_propagates_witness :
    cfgCN.enable_holiday = true ∧ cfgCN.holiday_country = "CN" ∧
    raisingCalendar.is_holiday ⟨dt2200.year, dt2200.month, dt2200.day⟩ =
      .error "NotImplementedError: no available data" ∧
    _get_holiday_info cfgCN raisingCalendar true dt2200 =
      .error "NotImplementedError: no available data" :=
  ⟨rfl, rfl, rfl,
    C2_amended_holiday_error_propagates cfgCN raisingCalendar dt2200 _ rfl rfl rfl⟩

/-- **C8 (counterexample)** — "For every invalid time-zone string" fails: the
malformed key `../x` makes the lookup raise `ValueError`, which the `except`
clause of line 87 does not catch, so construction raises instead of
substituting the default zone. -/
theorem C8_counterexample_malformed_key_raises :
    initTimezone tzdbRealistic "../x" = .error .valueError := by
  rfl

/-- **C8 (amended)** — If the configured time-zone name fails to resolve, the
caught kinds (`ZoneInfoNotFoundError`, `KeyError`) are replaced by the
default zone `Asia/Shanghai` (provided the zone database resolves it), while
an uncaught `ValueError` for a malformed key propagates out of construction
unchanged. -/
theorem C8_amended_caught_error_falls_back
    (zoneLookup : String → Except ZoneLookupError TZInfo)
    (name : String) (err : ZoneLookupError) (sh : TZInfo)
    (hbad : zoneLookup name = .error err)
    (hsh : zoneLookup "Asia/Shanghai" = .ok sh) :
    initTimezone zoneLookup name =
      (if err = ZoneLookupError.valueError then .error ZoneLookupError.valueError
       else .ok sh) := by
  cases err <;> simp [initTimezone, hbad, hsh]

/-- Witness for `C8_amended_caught_error_falls_back`: the unknown (but
well-formed) name `Not/AZone` raises the caught kind and falls back to
`Asia/Shanghai`. -/
theorem C8_amended_caught_error_falls_back_witness :
    tzdbRealistic "Not/AZone" = .error .zoneInfoNotFound ∧
    tzdbRealistic "Asia/Shanghai" = .ok ⟨"Asia/Shanghai"⟩ ∧
    initTimezone tzdbRealistic "Not/AZone" =
      (if ZoneLookupError.zoneInfoNotFound = ZoneLookupError.valueError then
        .error ZoneLookupError.valueError
       else .ok ⟨"Asia/Shanghai"⟩) :=
  ⟨rfl, rfl,
    C8_amended_caught_error_falls_back tzdbRealistic "Not/AZone"
      .zoneInfoNotFound ⟨"Asia/Shanghai"⟩ rfl rfl⟩

/-- **C9** — If the network call resolving the group's display name raises,
the platform phrase is still produced: group-name resolution swallows the
exception and yields `none`, and the part list is exactly the platform
fragment, the chat-kind fragment `群聊`, and the media flags — no group-name
fragment. -/
theorem C9_group_fetch_error_keeps_platform_phrase (e : Event) (err : String)
    (hmt : e.has_get_message_type = true)
    (hgrp : e.message_type_result = MessageType.GROUP_MESSAGE)
    (hatt : e.message_obj.bind (fun mo => mo.group) = none)
    (hfetch : e.get_group_result = .error err) :
    _get_group_name e = none ∧
    platformParts e =
      ["平台: " ++ platformDisplayName e.platform_name, "群聊"] ++
        mediaParts e.message_obj ∧
    _get_platform_info true e =
      String.intercalate ", "
        (["平台: " ++ platformDisplayName e.platform_name, "群聊"] ++
          mediaParts e.message_obj) := by
  have hname : _get_group_name e = none := by
    simp [_get_group_name, hatt, hfetch]
  have hparts : platformParts e =
      ["平台: " ++ platformDisplayName e.platform_name, "群聊"] ++
        mediaParts e.message_obj := by
    simp [platformParts, hmt, hgrp, hname]
  refine ⟨hname, hparts, ?_⟩
  simp [_get_platform_info, hparts]

/-- Witness for `C9_group_fetch_error_keeps_platform_phrase` at the concrete
group-chat event whose `get_group` call raises a connection error. -/
theorem C9_group_fetch_error_keeps_platform_phrase_witness :
    eventFetchFails.has_get_message_type = true ∧
    eventFetchFails.message_type_result = MessageType.GROUP_MESSAGE ∧
    eventFetchFails.message_obj.bind (fun mo => mo.group) = none ∧
    eventFetchFails.get_group_result = .error "ConnectionError: network unreachable" ∧
    (_get_group_name eventFetchFails = none ∧
     platformParts eventFetchFails =
       ["平台: " ++ platformDisplayName eventFetchFails.platform_name, "群聊"] ++
         mediaParts eventFetchFails.message_obj ∧
     _get_platform_info true eventFetchFails =
       String.intercalate ", "
         (["平台: " ++ platformDisplayName eventFetchFails.platform_name, "群聊"] ++
           mediaParts eventFetchFails.message_obj)) :=
  ⟨rfl, rfl, rfl, rfl,
    C9_group_fetch_error_keeps_platform_phrase eventFetchFails
      "ConnectionError: network unreachable" rfl rfl rfl rfl⟩

/-- **C1 (counterexample)** — "For every incoming request" fails: with the
default configuration, a raising holiday-calendar lookup (date 2200-01-01)
aborts the hook with the raised error, so the prompt is not rewritten. -/
theorem C1_counterexample_hook_aborts_without_rewrite :
    my_custom_hook_1 cfgCN raisingCalendar true true failingLunarConv dt2200
        eventPrivate req0 =
      .error "NotImplementedError: no available data" := by
  rfl

/-- **C1 (amended)** — Provided the holiday-phrase computation raises no
error, the hook computes the enabled phrases in the fixed order time,
holiday, lunar, solar-term, almanac, platform, joins exactly the non-empty
ones with `" | "`, and rewrites the prompt to the bracketed joined string, a
newline, then the original prompt, leaving every other request field
unchanged. -/
theorem C1_amended_hook_rewrites_prompt {α : Type} (cfg : Config)
    (cal : CalendarOracle) (ca la : Bool) (conv : LunarOracle) (t : PyDateTime)
    (e : Event) (req : ProviderRequest α) (holiday : String)
    (hok : _get_holiday_info cfg cal ca t = .ok holiday) :
    my_custom_hook_1 cfg cal ca la conv t e req =
      .ok { prompt :=
              "[" ++
                String.intercalate " | "
                  (("发送时间: " ++ strftimeYmdHMS t) ::
                    List.filter (fun s => s ≠ "")
                      [holiday,
                       _get_lunar_info cfg.enable_lunar la conv t,
                       _get_solar_term_info cfg.enable_solar_term la t.month t.day,
                       _get_almanac_info cfg.enable_almanac t.year t.month t.day,
                       _get_platform_info cfg.enable_platform e]) ++
                "]\n" ++ req.prompt,
            rest := req.rest } := by
  unfold my_custom_hook_1
  rw [hok]
  by_cases h1 : holiday = "" <;>
    by_cases h2 : _get_lunar_info cfg.enable_lunar la conv t = "" <;>
    by_cases h3 : _get_solar_term_info cfg.enable_solar_term la t.month t.day = "" <;>
    by_cases h4 : _get_almanac_info cfg.enable_almanac t.year t.month t.day = "" <;>
    by_cases h5 : _get_platform_info cfg.enable_platform e = "" <;>
    simp [h1, h2, h3, h4, h5]

/-- Witness for `C1_amended_hook_rewrites_prompt`: the all-features-off
configuration, whose holiday phrase is `.ok ""`. -/
theorem C1_amended_hook_rewrites_prompt_witness :
    _get_holiday_info cfgAllOff raisingCalendar true dt2200 = .ok "" ∧
    my_custom_hook_1 cfgAllOff raisingCalendar true true failingLunarConv dt2200
        eventPrivate req0 =
      .ok { prompt :=
              "[" ++
                String.intercalate " | "
                  (("发送时间: " ++ strftimeYmdHMS dt2200) ::
                    List.filter (fun s => s ≠ "")
                      [("" : String),
                       _get_lunar_info cfgAllOff.enable_lunar true failingLunarConv dt2200,
                       _get_solar_term_info cfgAllOff.enable_solar_term true
                         dt2200.month dt2200.day,
                       _get_almanac_info cfgAllOff.enable_almanac dt2200.year
                         dt2200.month dt2200.day,
                       _get_platform_info cfgAllOff.enable_platform eventPrivate]) ++
                "]\n" ++ req0.prompt,
            rest := req0.rest } :=
  ⟨rfl,
    C1_amended_hook_rewrites_prompt cfgAllOff raisingCalendar true true
      failingLunarConv dt2200 eventPrivate req0 "" rfl⟩

/-- No character produced by `digitChar` is the delimiter pipe. -/
theorem digitChar_ne_pipe (n : Nat) : digitChar n ≠ '|' := by
  unfold digitChar
  rcases h : n % 10 with _ | _ | _ | _ | _ | _ | _ | _ | _ | k <;>
    first
    | decide
    | exact (by decide : ('9' : Char) ≠ '|')

/-- The character list of the time-annotation prefix, written out. -/
theorem timeHeaderData (t : PyDateTime) :
    ("发送时间: " ++ strftimeYmdHMS t).data =
      ['发', '送', '时', '间', ':', ' '] ++
      [digitChar (t.year / 1000), digitChar (t.year / 100), digitChar (t.year / 10),
       digitChar t.year, '-', digitChar (t.month / 10), digitChar t.month, '-',
       digitChar (t.day / 10), digitChar t.day, ' ', digitChar (t.hour / 10),
       digitChar t.hour, ':', digitChar (t.minute / 10), digitChar t.minute, ':',
       digitChar (t.second / 10), digitChar t.second] := by
  rfl

/-- No character of the time-annotation prefix is a pipe, hence the joined
annotation of a single part contains no `" | "` delimiter. -/
theorem timeHeaderNePipe (t : PyDateTime) :
    ∀ c ∈ ("发送时间: " ++ strftimeYmdHMS t).data, c ≠ '|' := by
  intro c hc
  rw [timeHeaderData] at hc
  simp only [List.mem_append, List.mem_cons, List.not_mem_nil, or_false] at hc
  rcases hc with h | h
  · rcases h with rfl | rfl | rfl | rfl | rfl | rfl <;> decide
  · rcases h with rfl | rfl | rfl | rfl | rfl | rfl | rfl | rfl | rfl | rfl | rfl |
      rfl | rfl | rfl | rfl | rfl | rfl | rfl | rfl <;>
      first
      | exact digitChar_ne_pipe _
      | decide

/-- **C7** — With every optional feature toggle disabled, the hook rewrites
the prompt to exactly `"[发送时间: <timestamp>]"`, a newline, then the
original prompt (other fields untouched), and no pipe — hence no `" | "`
delimiter — occurs in the bracketed prefix. -/
theorem C7_all_disabled_prompt_exact {α : Type} (country : String)
    (cal : CalendarOracle) (ca la : Bool) (conv : LunarOracle)
    (t : PyDateTime) (e : Event) (req : ProviderRequest α) :
    my_custom_hook_1 ⟨false, false, false, false, false, country⟩ cal ca la conv
        t e req =
      .ok { prompt := "[发送时间: " ++ strftimeYmdHMS t ++ "]\n" ++ req.prompt,
            rest := req.rest } ∧
    ∀ c ∈ ("发送时间: " ++ strftimeYmdHMS t).data, c ≠ '|' :=
  ⟨rfl, timeHeaderNePipe t⟩

end LLMPerception
